import Mathlib

/-!
Verification of the request-extraction composition engine in `src/main.rs`.

The program composes an ordered, heterogeneously typed chain of request
extractors (frunk `HCons`/`HNil`) and runs the chain against one shared
request view (`Parts` metadata plus buffered body bytes), producing a typed
aggregate whose shape mirrors the chain.

Embedding conventions:
* a Rust function that can panic (`unwrap`) is modelled as an
  `Option`-valued function, `none` standing for the panic;
* body bytes are modelled as a `String` (the program only feeds them to a
  textual JSON decoder and all data in play is ASCII);
* `async` is erased: the program awaits each extractor to completion before
  the next one starts, so a run is a sequential pure computation.
-/

/-- Request metadata (`axum::http::request::Parts`): the fields the spec's
Request View names.  The program itself only reads `uri.path()`. -/
structure Parts where
  method : String
  path : String
  headers : List (String × String)
deriving DecidableEq

/-- Raw fully-buffered body bytes (`hyper::body::Bytes`), modelled as text. -/
abbrev Bytes := String

/-- A serde `DeserializeOwned` dictionary for `α`: `serde_json::from_slice`
specialised to `α`; `none` models a decode failure (a serde `Err`, which the
program turns into a panic with `unwrap`). -/
structure DeserializeOwned (α : Type) where
  from_slice : Bytes → Option α

/-- The `Extractor` trait together with its only two implementations
(src/main.rs lines 10–19): `PathExtractor<T>` wraps a `fn(&Parts) -> T`,
and `BodyExtractor<T>` wraps a `fn(&Bytes) -> T` under a
`T: DeserializeOwned` bound, here carried as an explicit dictionary. -/
inductive Extractor : Type → Type 1 where
  | PathExtractor : {α : Type} → (Parts → Option α) → Extractor α
  | BodyExtractor : {α : Type} → (Bytes → Option α) → DeserializeOwned α → Extractor α

/-- `Extractor::extract` (lines 21–39).  A `PathExtractor` applies its
stored function to the metadata and ignores the body.  A `BodyExtractor`
runs `serde_json::from_slice(body).unwrap()` — note that, as in line 36, it
uses the serde dictionary for `α` and does NOT call the function stored in
the struct (`self.0` is never read). -/
def Extractor.extract : {α : Type} → Extractor α → Parts → Bytes → Option α
  | _, .PathExtractor f, parts, _ => f parts
  | _, .BodyExtractor _ d, _, body => d.from_slice body

/-- The aggregate result: a frunk `HList` of values, indexed by the list of
element types (`HCons<H, T>` terminated by `HNil`). -/
inductive HList : List Type → Type 1 where
  | nil : HList []
  | cons : {α : Type} → {ts : List Type} → α → HList ts → HList (α :: ts)

/-- An extractor chain: a frunk `HList` whose elements are extractor
references (`HCons<&E, R>` rooted in `HNil`), indexed by the output type
declared at each position. -/
inductive Chain : List Type → Type 1 where
  | nil : Chain []
  | cons : {α : Type} → {ts : List Type} → Extractor α → Chain ts → Chain (α :: ts)

/-- `empty_endpoint` (lines 41–43): the empty chain `HNil`. -/
def empty_endpoint : Chain [] := Chain.nil

/-- `Extractable::with_extractor` (lines 51–59): append an extractor to a
chain by consing it on as the new head. -/
def Chain.with_extractor {α : Type} {ts : List Type}
    (c : Chain ts) (e : Extractor α) : Chain (α :: ts) :=
  Chain.cons e c

/-- The extraction driver: `Extractable::extract` for `HNil` (lines 71–79)
and for `HCons` (lines 81–93).  The head extractor is awaited first, then
the tail chain is extracted against the same `Parts` and `Bytes`, and the
two results are combined; a panic (`none`) anywhere aborts the whole run. -/
def Chain.extract : {ts : List Type} → Chain ts → Parts → Bytes → Option (HList ts)
  | _, .nil, _, _ => some HList.nil
  | _, .cons e c, parts, body =>
    match e.extract parts body with
    | none => none
    | some h =>
      match c.extract parts body with
      | none => none
      | some t => some (HList.cons h t)

/-- Number of extractors in a chain. -/
def Chain.length : {ts : List Type} → Chain ts → Nat
  | _, .nil => 0
  | _, .cons _ c => c.length + 1

/-- The output type declared by each chain position, head first. -/
def Chain.outputTypes : {ts : List Type} → Chain ts → List Type
  | _, .nil => []
  | _, @Chain.cons α _ _ c => α :: c.outputTypes

/-- Number of values in an aggregate. -/
def HList.length : {ts : List Type} → HList ts → Nat
  | _, .nil => 0
  | _, .cons _ t => t.length + 1

/-- The type of the value at each aggregate position, head first. -/
def HList.types : {ts : List Type} → HList ts → List Type
  | _, .nil => []
  | _, @HList.cons α _ _ t => α :: t.types

/-- Splitting a character list at every occurrence of a separator, keeping
empty pieces: the behaviour of Rust `str::split` with a single-character
pattern, as used on line 122 (`"/hello/1337".split("/")` yields
`["", "hello", "1337"]`). -/
def splitOnSep (sep : Char) : List Char → List (List Char)
  | [] => [[]]
  | c :: rest =>
    if c = sep then [] :: splitOnSep sep rest
    else
      match splitOnSep sep rest with
      | [] => [[c]]
      | piece :: pieces => (c :: piece) :: pieces

/-- The path pieces of a request, as strings; piece `n` is selected with
`Iterator::nth(n)` (0-based), which yields `none` past the end. -/
def path_segments (path : String) : List String :=
  (splitOnSep '/' path.data).map (fun l => String.mk l)

/-- Decimal value of a digit list, most significant first. -/
def digitsToNat (l : List Char) : Nat :=
  l.foldl (fun acc c => acc * 10 + (c.toNat - 48)) 0

/-- `str::parse::<u64>` on the strings the program meets: succeeds exactly
on a nonempty all-digit string whose value fits in 64 bits, and fails
otherwise (`unwrap` of the failure is the panic `none`). -/
def parse_u64 (s : String) : Option Nat :=
  if s.data ≠ [] ∧ s.data.all Char.isDigit ∧ digitsToNat s.data < 2 ^ 64 then
    some (digitsToNat s.data)
  else none

/-- `extract_first_part` (lines 121–122): read path segment 1 as text. -/
def extract_first_part : Extractor String :=
  .PathExtractor (fun request => (path_segments request.path)[1]?)

/-- `extract_second_part` (lines 124–133): read path segment 2 and parse it
as a `u64`. -/
def extract_second_part : Extractor Nat :=
  .PathExtractor (fun request => ((path_segments request.path)[2]?).bind parse_u64)

/-- The `Contact` payload struct (lines 95–100); `age: u8` is a natural
number, bounded below 256 where serde enforces the bound (decoding). -/
structure Contact where
  name : String
  email : String
  age : Nat
deriving DecidableEq

/-- Consume an expected literal from the front of the input. -/
def dropLit : List Char → List Char → Option (List Char)
  | [], s => some s
  | _ :: _, [] => none
  | c :: cs, d :: ds => if c = d then dropLit cs ds else none

/-- Consume the characters of a JSON string up to the closing quote (no
escape sequences occur in the program's data). -/
def takeStringChars : List Char → Option (List Char × List Char)
  | [] => none
  | c :: rest =>
    if c = '"' then some ([], rest)
    else
      match takeStringChars rest with
      | none => none
      | some (piece, r) => some (c :: piece, r)

/-- Leading decimal digits of the input, and the remainder. -/
def takeDigits : List Char → List Char × List Char
  | [] => ([], [])
  | c :: rest =>
    if c.isDigit then
      match takeDigits rest with
      | (d, r) => (c :: d, r)
    else ([], c :: rest)

/-- Modelled from the spec: the external JSON body decoder (§6 names
`serde_json` as an out-of-scope collaborator supplying a decode function
per target shape) specialised to the `Contact` shape, on the canonical
field order `name`, `email`, `age` that `serde_json::to_string` emits;
`age` must fit in `u8`.  `none` on any mismatch is the decode failure. -/
def contact_from_slice (b : Bytes) : Option Contact :=
  match dropLit "\x7b\"name\":\"".data b.data with
  | none => none
  | some r1 =>
    match takeStringChars r1 with
    | none => none
    | some (nm, r2) =>
      match dropLit ",\"email\":\"".data r2 with
      | none => none
      | some r3 =>
        match takeStringChars r3 with
        | none => none
        | some (em, r4) =>
          match dropLit ",\"age\":".data r4 with
          | none => none
          | some r5 =>
            match takeDigits r5 with
            | (ds, r6) =>
              if ds ≠ [] ∧ digitsToNat ds < 256 ∧ r6 = "\x7d".data then
                some ⟨String.mk nm, String.mk em, digitsToNat ds⟩
              else none

/-- Modelled from the spec: `serde_json::to_string(&contact)` (§6's textual
structured-object format), producing the canonical encoding used in `main`
(line 112). -/
def contact_to_string (c : Contact) : String :=
  "\x7b\"name\":\"" ++ c.name ++ "\",\"email\":\"" ++ c.email ++
    "\",\"age\":" ++ toString c.age ++ "\x7d"

/-- The serde dictionary `Contact: DeserializeOwned`. -/
def contactDeserialize : DeserializeOwned Contact :=
  ⟨contact_from_slice⟩

/-- `extract_contact_from_body` (lines 135–136): a `BodyExtractor<Contact>`
whose stored closure is `|body| serde_json::from_slice(body).unwrap()`. -/
def extract_contact_from_body : Extractor Contact :=
  .BodyExtractor contact_from_slice contactDeserialize

/-- `endpoint2` (lines 138–141): the worked chain, built by appending, in
order, the first path extractor, the second path extractor, and the body
extractor onto the empty chain. -/
def endpoint2 : Chain [Contact, Nat, String] :=
  ((empty_endpoint.with_extractor extract_first_part).with_extractor
      extract_second_part).with_extractor extract_contact_from_body

/-- The contact built in `main` (lines 106–110). -/
def johnDoe : Contact := ⟨"John Doe", "foo@john.com", 42⟩

/-- The metadata of the request built in `main` (lines 114–119): the
builder's default method GET, uri `/hello/1337`, no headers. -/
def exampleParts : Parts := ⟨"GET", "/hello/1337", []⟩

/-- The request body of `main`: the serialised John Doe contact. -/
def exampleBody : Bytes := contact_to_string johnDoe

/-- Metadata whose path `/hello` lacks segment 2: the second path
extractor's `unwrap` panics there (a metadata-access failure, chain
position 2 in construction order). -/
def missingSegmentParts : Parts := ⟨"GET", "/hello", []⟩

/-- Metadata whose path `/hello/abc` has a non-numeric segment 2: the
second path extractor's parse fails there (a metadata-access failure,
chain position 2 in construction order). -/
def nonNumericParts : Parts := ⟨"GET", "/hello/abc", []⟩

/-- A body that is not valid JSON for `Contact`: the body extractor's
decode fails on it (a decode failure, chain position 3 in construction
order). -/
def malformedBody : Bytes := "not json"

/-- A second contact, distinct from John Doe. -/
def janeRoe : Contact := ⟨"Jane Roe", "jane@roe.com", 7⟩

/-- A pluggable decode function that ignores its input and returns Jane
Roe; used to probe whether `BodyExtractor` really runs its stored decode
function. -/
def constJane : Bytes → Option Contact := fun _ => some janeRoe

/-- Every aggregate has as many values as its type index has entries. -/
theorem hlist_length_eq_index {ts : List Type} (h : HList ts) :
    h.length = ts.length := by
  induction h with
  | nil => rfl
  | cons x t ih => simpa [HList.length] using ih

/-- Every aggregate's value types are its type index. -/
theorem hlist_types_eq_index {ts : List Type} (h : HList ts) :
    h.types = ts := by
  induction h with
  | nil => rfl
  | cons x t ih => simpa [HList.types] using ih

/-- Every chain has as many extractors as its type index has entries. -/
theorem chain_length_eq_index {ts : List Type} (c : Chain ts) :
    c.length = ts.length := by
  induction c with
  | nil => rfl
  | cons e c ih => simpa [Chain.length] using ih

/-- Every chain's declared output types are its type index. -/
theorem chain_outputTypes_eq_index {ts : List Type} (c : Chain ts) :
    c.outputTypes = ts := by
  induction c with
  | nil => rfl
  | cons e c ih => simpa [Chain.outputTypes] using ih

/-- C1: running the worked chain (path segment 1 as text, path segment 2 as
an unsigned integer, then the `Contact` body decoder) against the request
with path `/hello/1337` and the serialised John Doe body succeeds and
yields the aggregate whose elements, read in construction order (deepest
element first, as the spec's worked scenario fixes), are `"hello"`, `1337`,
and the John Doe contact — the `HList` head being the most recently
appended extractor's output, exactly the value printed on line 145. -/
theorem worked_example_run :
    endpoint2.extract exampleParts exampleBody =
      some (HList.cons johnDoe (HList.cons 1337 (HList.cons "hello" HList.nil))) := by
  rfl

/-- C2 counterexample: the claim that a failure is reported as a typed
outcome distinguishing the failure kind and the failing chain position is
false — a metadata-access failure at construction position 2 (path
`/hello`, segment 2 missing) and a decode failure at construction position
3 (body `"not json"`) produce the very same bare outcome `none` (the
propagated `unwrap` panic), so the outcome carries neither kind nor
position. -/
theorem failure_outcomes_indistinguishable :
    endpoint2.extract missingSegmentParts exampleBody =
        endpoint2.extract exampleParts malformedBody ∧
    endpoint2.extract missingSegmentParts exampleBody = none := by
  exact ⟨rfl, rfl⟩

/-- C2 amended: when any extractor of a chain fails, the whole run fails —
it yields an aggregate exactly when no extractor fails, and a failure is
never swallowed into a partial aggregate; but the propagated failure is the
untyped panic `none`, carrying no failure kind and no chain position. -/
theorem failure_propagates_untyped {α : Type} {ts : List Type}
    (e : Extractor α) (c : Chain ts) (parts : Parts) (body : Bytes) :
    (Chain.cons e c).extract parts body = none ↔
      (e.extract parts body = none ∨ c.extract parts body = none) := by
  cases he : e.extract parts body with
  | none => simp [Chain.extract, he]
  | some h =>
    cases hc : c.extract parts body with
    | none => simp [Chain.extract, he, hc]
    | some t => simp [Chain.extract, he, hc]

/-- C3: appending preserves prior structure: for every chain `C`, extractor
`E`, and request view `R`, running `with_extractor C E` on `R` equals
combining `E`'s own extraction result on `R` with the run of `C` on `R`,
the new output in head position — `none` if either side panics. -/
theorem append_preserves_runAll {α : Type} {ts : List Type}
    (c : Chain ts) (e : Extractor α) (parts : Parts) (body : Bytes) :
    (c.with_extractor e).extract parts body =
      (e.extract parts body).bind (fun h =>
        (c.extract parts body).map (fun t => HList.cons h t)) := by
  cases he : e.extract parts body with
  | none => simp [Chain.with_extractor, Chain.extract, he]
  | some h =>
    cases hc : c.extract parts body with
    | none => simp [Chain.with_extractor, Chain.extract, he, hc]
    | some t => simp [Chain.with_extractor, Chain.extract, he, hc]

/-- C4: any aggregate produced by running a chain has the same length as
the chain, and its sequence of element types equals the sequence of output
types declared by the chain's positions. -/
theorem aggregate_mirrors_chain {ts : List Type} (c : Chain ts)
    (parts : Parts) (body : Bytes) (agg : HList ts)
    (h : c.extract parts body = some agg) :
    agg.length = c.length ∧ agg.types = c.outputTypes := by
  constructor
  · rw [hlist_length_eq_index, chain_length_eq_index]
  · rw [hlist_types_eq_index, chain_outputTypes_eq_index]

/-- C4 witness: the worked chain's successful run yields an aggregate of
length 3 whose element types are `[Contact, Nat, String]`, matching the
chain. -/
theorem aggregate_mirrors_chain_witness :
    (HList.cons johnDoe (HList.cons 1337 (HList.cons "hello" HList.nil))).length
        = endpoint2.length ∧
    (HList.cons johnDoe (HList.cons 1337 (HList.cons "hello" HList.nil))).types
        = endpoint2.outputTypes :=
  aggregate_mirrors_chain endpoint2 exampleParts exampleBody
    (HList.cons johnDoe (HList.cons 1337 (HList.cons "hello" HList.nil))) (by rfl)

/-- C5: running the empty chain against any request view yields the empty
aggregate, always, with no failure. -/
theorem empty_chain_extract (parts : Parts) (body : Bytes) :
    empty_endpoint.extract parts body = some HList.nil := rfl

/-- C6: the code contradicts the claim that a body-extractor's value is
computed by the pluggable decode function supplied at construction — a
`BodyExtractor<Contact>` built with the decode function `constJane`
nevertheless returns the serde-decoded John Doe contact on John Doe's body
bytes, because `BodyExtractor::extract` (line 36) calls
`serde_json::from_slice` directly and never reads the function stored in
the struct's only field. -/
theorem body_extractor_ignores_supplied_decoder :
    (Extractor.BodyExtractor constJane contactDeserialize).extract
        exampleParts exampleBody = some johnDoe ∧
    constJane exampleBody = some janeRoe ∧ johnDoe ≠ janeRoe := by
  refine ⟨rfl, rfl, ?_⟩
  decide

/-- C7 counterexample: the claim that the reported failure identifies the
failing position `k` and its kind is false — a metadata-access failure at
construction position 2 (segment 2 of `/hello/abc` is not numeric) and a
decode failure at construction position 3 (body `"not json"`) are reported
identically: both runs yield the bare `none`. -/
theorem failure_position_not_reported :
    endpoint2.extract nonNumericParts exampleBody =
        endpoint2.extract exampleParts malformedBody ∧
    endpoint2.extract nonNumericParts exampleBody = none := by
  exact ⟨rfl, rfl⟩

/-- C7 amended: failure short-circuits — when the first extractor to run
(the chain's head) fails, the whole run yields `none` for every possible
tail chain, so no later extractor influences the outcome and no partial
aggregate is ever returned; the failure itself carries no position or
kind. -/
theorem failure_short_circuits {α : Type} (e : Extractor α)
    (parts : Parts) (body : Bytes) (he : e.extract parts body = none) :
    ∀ {ts : List Type} (c : Chain ts),
      (Chain.cons e c).extract parts body = none := by
  intro ts c
  simp [Chain.extract, he]

/-- C7 amended witness: the malformed body makes the worked chain's head
body extractor fail, and the whole run yields `none` for that request. -/
theorem failure_short_circuits_witness :
    (Chain.cons extract_contact_from_body
        ((empty_endpoint.with_extractor extract_first_part).with_extractor
          extract_second_part)).extract exampleParts malformedBody = none :=
  failure_short_circuits extract_contact_from_body exampleParts malformedBody rfl
    ((empty_endpoint.with_extractor extract_first_part).with_extractor
      extract_second_part)

/-- C8: extraction is a pure read: running the same chain against two
request views built from identical metadata and identical body bytes
produces equal results — there is no hidden state for a run to mutate. -/
theorem extract_deterministic {ts : List Type} (c : Chain ts)
    (p1 p2 : Parts) (b1 b2 : Bytes) (hp : p1 = p2) (hb : b1 = b2) :
    c.extract p1 b1 = c.extract p2 b2 := by
  subst hp
  subst hb
  rfl

/-- C8 witness: two runs of the worked chain on identically built request
views agree. -/
theorem extract_deterministic_witness :
    endpoint2.extract exampleParts exampleBody =
      endpoint2.extract exampleParts exampleBody :=
  extract_deterministic endpoint2 exampleParts exampleParts exampleBody exampleBody
    rfl rfl

/-- C9: non-interference: a `PathExtractor` reads only the metadata — its
output is unchanged across any two bodies — and a `BodyExtractor` reads
only the body bytes — its output is unchanged across any two metadata
values. -/
theorem extractor_noninterference :
    (∀ (α : Type) (f : Parts → Option α) (parts : Parts) (b1 b2 : Bytes),
        (Extractor.PathExtractor f).extract parts b1 =
          (Extractor.PathExtractor f).extract parts b2) ∧
    (∀ (α : Type) (f : Bytes → Option α) (d : DeserializeOwned α)
        (p1 p2 : Parts) (body : Bytes),
        (Extractor.BodyExtractor f d).extract p1 body =
          (Extractor.BodyExtractor f d).extract p2 body) :=
  ⟨fun _ _ _ _ _ => rfl, fun _ _ _ _ _ _ => rfl⟩

/-- C10: extraction of a non-empty chain consults the head (most recently
appended) extractor first: if the head panics the whole run yields `none`
whatever the tail would do, and when head and tail both succeed the
aggregate is the head extractor's output consed onto the tail chain's
aggregate — extractors thus run in reverse construction order and the
aggregate's head element is the most recently appended extractor's
output. -/
theorem head_runs_before_tail {α : Type} {ts : List Type}
    (e : Extractor α) (c : Chain ts) (parts : Parts) (body : Bytes) :
    (e.extract parts body = none → (Chain.cons e c).extract parts body = none) ∧
    (∀ (h : α) (t : HList ts), e.extract parts body = some h →
        c.extract parts body = some t →
        (Chain.cons e c).extract parts body = some (HList.cons h t)) := by
  constructor
  · intro he
    simp [Chain.extract, he]
  · intro h t he hc
    simp [Chain.extract, he, hc]

/-- C10 witness: in the worked chain, the body extractor heads the chain
and its John Doe output heads the aggregate, the tail chain's aggregate
following. -/
theorem head_runs_before_tail_witness :
    (Chain.cons extract_contact_from_body
        ((empty_endpoint.with_extractor extract_first_part).with_extractor
          extract_second_part)).extract exampleParts exampleBody =
      some (HList.cons johnDoe (HList.cons 1337 (HList.cons "hello" HList.nil))) :=
  (head_runs_before_tail extract_contact_from_body
      ((empty_endpoint.with_extractor extract_first_part).with_extractor
        extract_second_part) exampleParts exampleBody).2
    johnDoe (HList.cons 1337 (HList.cons "hello" HList.nil)) rfl rfl
